import Mathlib

/-!
Shallow embedding of the CNC spot-welder controller FSM
(`src/goodEnough/functions.cpp` / `functions.h`).

The controller is a cooperative, tick-driven state machine: `fsmUpdate` is
called once per outer-loop iteration, dispatches on the top-level
`MachineState`, and each handler advances its own sub-state.  External
collaborators (steppers, encoder, button, limit switches, LCD, servo) are
modelled at their interface boundary: inputs sampled during one tick are an
`Env` record, and commands issued to the drivers during one tick are a list
of `Cmd` events.  C++ `int`/`long` values are modelled as `Int` (the values
involved stay far from any overflow boundary).
-/

namespace CNC

/-- Top-level machine state (`MachineState` in the source). -/
inductive MachineState
  | mainMenu
  | autoMenu
  | autoRun
  | manualMenu
  | jogX
  | jogY
  | jogZ
deriving DecidableEq, Repr

/-- Sub-state machine used inside `STATE_AUTO_RUN` (`AutoState` in the source). -/
inductive AutoState
  | idle
  | moveX
  | waitX
  | moveY
  | waitY
  | decisionMenu
deriving DecidableEq, Repr

/-- Commands issued to the external drivers during one tick.  LCD text writes
are abstracted to one constructor per render block of the source (the display
driver is out of scope per the spec); motor and servo commands carry their
numeric argument. -/
inductive Cmd
  | home                       -- a call to the blocking `autoHome()` routine
  | servoWrite (angle : Int)   -- `servo.write(angle)`
  | xMove (offset : Int)       -- `motorX1.move(offset); motorX2.move(offset)`
  | xMoveTo (target : Int)     -- `motorX1.moveTo(target); motorX2.moveTo(target)`
  | yMoveTo (target : Int)     -- `motorY.moveTo(target)`
  | setSpeeds                  -- the speed setup in the AUTO_IDLE entry block
  | renderMainMenu             -- the main-menu label block
  | renderAutoMenu             -- the auto-menu label block
  | renderManualMenu           -- the manual-menu label block
  | renderDecision             -- the 3-row Continue/Back/Exit label block
  | renderJogX                 -- the jog-X label block
  | renderJogY                 -- the jog-Y label block
  | renderJogZ                 -- the jog-Z label block
  | lcdStarting                -- "Starting Auto Mode"
  | lcdMoving (x y : Int)      -- "Moving to Position X=.. Y=.."
  | lcdLowering                -- "Lowering Probe..."
  | lcdAutoComplete            -- "Auto Complete"
  | caret (row : Int)          -- `lcd.setCursor(0, row)`
  | blink                      -- `lcd.blink()`
  | noBlink                    -- `lcd.noBlink()`
deriving DecidableEq, Repr

/-- Inputs sampled from the environment during one tick: the scaled encoder
count (`myEnc.read() / 4`), whether the button pin reads LOW, the remaining
distances reported by the three steppers, and the current positions used to
seed the jog targets. -/
structure Env where
  encCount : Int
  buttonLow : Bool
  x1Dist : Int
  x2Dist : Int
  yDist : Int
  x1Pos : Int
  yPos : Int
deriving DecidableEq, Repr

/-- The whole mutable state of the source file: the two file-scope globals
(`gState`, `gLastEncCount`), the static local of `buttonPressedEdge`, and the
static locals of every handler. -/
structure St where
  gState : MachineState
  gLastEncCount : Int
  btnLast : Bool
  mmInit : Bool
  mmRow : Int
  amInit : Bool
  amRow : Int
  manInit : Bool
  manRow : Int
  autoState : AutoState
  xIndex : Int
  yIndex : Int
  menuRow : Int
  lastEnc : Int
  jxInit : Bool
  jxTarget : Int
  jyInit : Bool
  jyTarget : Int
  jzInit : Bool
  jzLast : Int
  jzAngle : Int
deriving DecidableEq, Repr

/-- Modelled from the spec: the grid width constant `AUTO_NUM_X` is referenced
by `handleAutoRun` but not defined under `src/`; the spec fixes GRID_X = 3. -/
def AUTO_NUM_X : Int := 3

/-- Modelled from the spec: the grid height constant `AUTO_NUM_Y` is referenced
by `handleAutoRun` but not defined under `src/`; the spec fixes GRID_Y = 6. -/
def AUTO_NUM_Y : Int := 6

/-- Modelled from the spec: `JOG_STEP_X` is referenced by `handleJogX` but not
defined under `src/` and the spec gives no value; fixed arbitrarily (no claim
depends on it). -/
def JOG_STEP_X : Int := 1

/-- Modelled from the spec: `JOG_STEP_Y` is referenced by `handleJogY` but not
defined under `src/` and the spec gives no value; fixed arbitrarily (no claim
depends on it). -/
def JOG_STEP_Y : Int := 1

/-- Arduino's `constrain(amt, low, high)` macro. -/
def constrain (amt low high : Int) : Int :=
  if amt < low then low else if amt > high then high else amt

/-- `updateMenuRow` from the source: applies the encoder delta since the last
stored count to the highlighted row, clamped to `[0, maxRows)`; returns the new
row and the new value of `gLastEncCount` (always the fresh count). -/
def updateMenuRow (currentRow maxRows count gLastEncCount : Int) : Int × Int :=
  let delta := count - gLastEncCount
  let r :=
    if delta > 0 ∧ currentRow < maxRows - 1 then currentRow + 1
    else if delta < 0 ∧ currentRow > 0 then currentRow - 1
    else currentRow
  (r, count)

/-- The two sequential `if`s updating `menuRow` inside `AUTO_DECISION_MENU`:
increment on positive delta below row 2, then decrement on negative delta
above row 0 (the conditions are mutually exclusive in `delta`). -/
def decisionRowUpdate (menuRow delta : Int) : Int :=
  let r := if delta > 0 ∧ menuRow < 2 then menuRow + 1 else menuRow
  if delta < 0 ∧ r > 0 then r - 1 else r

/-- One angle update of `handleJogZ`: when the delta is nonzero, add it and
clamp to `[0, 180]`; otherwise the angle is untouched. -/
def jogZStep (angle delta : Int) : Int :=
  if delta ≠ 0 then constrain (angle + delta) 0 180 else angle

/-- The angle held by `handleJogZ` after a sequence of encoder deltas has been
applied to the neutral 90-degree start. -/
def jogZAngles (deltas : List Int) : Int :=
  deltas.foldl jogZStep 90

/-- One homing seek loop of `autoHome` (`while (digitalRead(LIMIT) == LOW) run`):
given the finite list of successive digital reads (`true` = electrical HIGH),
returns the number of drive steps taken before the loop exits, or `none` when
every listed read is LOW and the loop is still running at the end of the list. -/
def seekSteps : List Bool → Option Nat
  | [] => none
  | r :: rest => if r then some 0 else (seekSteps rest).map (fun n => n + 1)

/-- Modelled from the spec claim, for comparison with `seekSteps`: a seek loop
that keeps driving while the read has not reported triggered and exits exactly
when it reports triggered, with triggered meaning the read is electrical LOW
(`false`). -/
def seekStepsClaim : List Bool → Option Nat
  | [] => none
  | r :: rest => if r then (seekStepsClaim rest).map (fun n => n + 1) else some 0

/-- The absolute Y target of `AUTO_MOVE_Y`: the source computes
`(long)((yIndex + 1) * Y_MOVE)` with `Y_MOVE = 107.8` in double arithmetic;
modelled with exact rational arithmetic as `(yIndex + 1) * 1078 / 10` (the
binary-float truncation can differ by one step unit; no claim depends on the
numeric value). -/
def yMoveTarget (yIndex : Int) : Int :=
  ((yIndex + 1) * 1078) / 10

/-- `handleMainMenu` from the source: 2-row menu, row 0 selects the Automatic
path, row 1 the Manual path. -/
def handleMainMenu (s : St) (e : Env) : St × List Cmd :=
  let entering := !s.mmInit
  let s1 := if s.mmInit then s
            else { s with mmRow := 0, gLastEncCount := e.encCount, mmInit := true }
  let row1 := (updateMenuRow s1.mmRow 2 e.encCount s1.gLastEncCount).1
  let rowChanged := row1 ≠ s1.mmRow
  let s2 := { s1 with mmRow := row1, gLastEncCount := e.encCount }
  let edge := !s2.btnLast && e.buttonLow
  let s3 := { s2 with btnLast := e.buttonLow }
  let s4 :=
    if edge then
      { s3 with mmInit := false,
                gState := if s3.mmRow = 0 then MachineState.autoMenu
                          else MachineState.manualMenu }
    else s3
  (s4,
   (if entering then [Cmd.renderMainMenu, Cmd.caret 0, Cmd.blink] else [])
     ++ (if rowChanged then [Cmd.caret row1] else [])
     ++ (if edge then [Cmd.noBlink] else []))

/-- `handleAutoMenu` from the source: 2-row menu shown in the Automatic path,
row 0 starts the auto run, row 1 returns to the main menu. -/
def handleAutoMenu (s : St) (e : Env) : St × List Cmd :=
  let entering := !s.amInit
  let s1 := if s.amInit then s
            else { s with amRow := 0, gLastEncCount := e.encCount, amInit := true }
  let row1 := (updateMenuRow s1.amRow 2 e.encCount s1.gLastEncCount).1
  let rowChanged := row1 ≠ s1.amRow
  let s2 := { s1 with amRow := row1, gLastEncCount := e.encCount }
  let edge := !s2.btnLast && e.buttonLow
  let s3 := { s2 with btnLast := e.buttonLow }
  let s4 :=
    if edge then
      { s3 with amInit := false,
                gState := if s3.amRow = 0 then MachineState.autoRun
                          else MachineState.mainMenu }
    else s3
  (s4,
   (if entering then [Cmd.renderAutoMenu, Cmd.caret 0, Cmd.blink] else [])
     ++ (if rowChanged then [Cmd.caret row1] else [])
     ++ (if edge then [Cmd.noBlink] else []))

/-- `handleManualMenu` from the source: 4-row menu selecting jog X / jog Y /
jog Z / back to the main menu. -/
def handleManualMenu (s : St) (e : Env) : St × List Cmd :=
  let entering := !s.manInit
  let s1 := if s.manInit then s
            else { s with manRow := 0, gLastEncCount := e.encCount, manInit := true }
  let row1 := (updateMenuRow s1.manRow 4 e.encCount s1.gLastEncCount).1
  let rowChanged := row1 ≠ s1.manRow
  let s2 := { s1 with manRow := row1, gLastEncCount := e.encCount }
  let edge := !s2.btnLast && e.buttonLow
  let s3 := { s2 with btnLast := e.buttonLow }
  let s4 :=
    if edge then
      { s3 with manInit := false,
                gState :=
                  if s3.manRow = 0 then MachineState.jogX
                  else if s3.manRow = 1 then MachineState.jogY
                  else if s3.manRow = 2 then MachineState.jogZ
                  else MachineState.mainMenu }
    else s3
  (s4,
   (if entering then [Cmd.renderManualMenu, Cmd.caret 0, Cmd.blink] else [])
     ++ (if rowChanged then [Cmd.caret row1] else [])
     ++ (if edge then [Cmd.noBlink] else []))

/-- `handleAutoRun` from the source: the AUTO_IDLE entry block (which resets
the grid cursor and immediately falls through into the switch), then the
AutoState switch. -/
def handleAutoRun (s : St) (e : Env) : St × List Cmd :=
  let entering := s.autoState = AutoState.idle
  let s0 := if entering then
              { s with xIndex := 0, yIndex := 0, autoState := AutoState.moveX }
            else s
  let cmds0 : List Cmd := if entering then [Cmd.setSpeeds, Cmd.lcdStarting] else []
  match s0.autoState with
  | AutoState.idle =>
      -- matches the defensive `default:` of the source switch (reset to idle)
      ({ s0 with autoState := AutoState.idle }, cmds0)
  | AutoState.moveX =>
      if s0.xIndex ≥ AUTO_NUM_X then
        ({ s0 with autoState := AutoState.idle, gState := MachineState.mainMenu },
         cmds0 ++ [Cmd.lcdAutoComplete])
      else
        ({ s0 with autoState := AutoState.waitX }, cmds0 ++ [Cmd.xMove (-500)])
  | AutoState.waitX =>
      if e.x1Dist = 0 ∧ e.x2Dist = 0 then
        ({ s0 with yIndex := 0, autoState := AutoState.moveY }, cmds0)
      else (s0, cmds0)
  | AutoState.moveY =>
      if s0.yIndex ≥ AUTO_NUM_Y then
        ({ s0 with xIndex := s0.xIndex + 1, autoState := AutoState.moveX }, cmds0)
      else
        ({ s0 with autoState := AutoState.waitY },
         cmds0 ++ [Cmd.lcdMoving s0.xIndex s0.yIndex,
                   Cmd.yMoveTo (yMoveTarget s0.yIndex)])
  | AutoState.waitY =>
      if e.yDist = 0 then
        ({ s0 with menuRow := 0, lastEnc := e.encCount,
                   autoState := AutoState.decisionMenu },
         cmds0 ++ [Cmd.lcdLowering, Cmd.servoWrite 135,
                   Cmd.renderDecision, Cmd.caret 0, Cmd.blink])
      else (s0, cmds0)
  | AutoState.decisionMenu =>
      let delta := e.encCount - s0.lastEnc
      let row := decisionRowUpdate s0.menuRow delta
      let s1 := { s0 with menuRow := row, lastEnc := e.encCount }
      let cmds1 := cmds0 ++ [Cmd.caret row]
      let edge := !s1.btnLast && e.buttonLow
      let s2 := { s1 with btnLast := e.buttonLow }
      if edge then
        if row = 0 then
          ({ s2 with yIndex := s2.yIndex + 1, autoState := AutoState.moveY },
           cmds1 ++ [Cmd.noBlink, Cmd.servoWrite 90])
        else if row = 1 then
          let s3 :=
            if s2.yIndex > 0 then { s2 with yIndex := s2.yIndex - 1 }
            else if s2.xIndex > 0 then
              { s2 with xIndex := s2.xIndex - 1, yIndex := AUTO_NUM_Y - 1 }
            else s2
          ({ s3 with autoState := AutoState.moveY },
           cmds1 ++ [Cmd.noBlink, Cmd.servoWrite 90])
        else if row = 2 then
          ({ s2 with autoState := AutoState.idle, gState := MachineState.mainMenu },
           cmds1 ++ [Cmd.noBlink, Cmd.servoWrite 90])
        else
          (s2, cmds1 ++ [Cmd.noBlink])
      else (s2, cmds1)

/-- `handleJogX` from the source: encoder deltas accumulate into a target
position commanded to both X steppers; a button edge exits to the manual menu. -/
def handleJogX (s : St) (e : Env) : St × List Cmd :=
  let entering := !s.jxInit
  let s1 := if s.jxInit then s
            else { s with jxTarget := e.x1Pos, gLastEncCount := e.encCount,
                          jxInit := true }
  let delta := e.encCount - s1.gLastEncCount
  let moved := delta ≠ 0
  let t := s1.jxTarget + delta * JOG_STEP_X
  let s2 := if moved then { s1 with gLastEncCount := e.encCount, jxTarget := t }
            else { s1 with gLastEncCount := e.encCount }
  let edge := !s2.btnLast && e.buttonLow
  let s3 := { s2 with btnLast := e.buttonLow }
  let s4 := if edge then { s3 with jxInit := false, gState := MachineState.manualMenu }
            else s3
  (s4,
   (if entering then [Cmd.renderJogX] else [])
     ++ (if moved then [Cmd.xMoveTo t] else []))

/-- `handleJogY` from the source: encoder deltas accumulate into a target
position commanded to the Y stepper; a button edge exits to the manual menu. -/
def handleJogY (s : St) (e : Env) : St × List Cmd :=
  let entering := !s.jyInit
  let s1 := if s.jyInit then s
            else { s with jyTarget := e.yPos, gLastEncCount := e.encCount,
                          jyInit := true }
  let delta := e.encCount - s1.gLastEncCount
  let moved := delta ≠ 0
  let t := s1.jyTarget + delta * JOG_STEP_Y
  let s2 := if moved then { s1 with gLastEncCount := e.encCount, jyTarget := t }
            else { s1 with gLastEncCount := e.encCount }
  let edge := !s2.btnLast && e.buttonLow
  let s3 := { s2 with btnLast := e.buttonLow }
  let s4 := if edge then { s3 with jyInit := false, gState := MachineState.manualMenu }
            else s3
  (s4,
   (if entering then [Cmd.renderJogY] else [])
     ++ (if moved then [Cmd.yMoveTo t] else []))

/-- `handleJogZ` from the source: encoder deltas move the servo angle one
degree per detent, clamped to `[0, 180]`; the angle accumulator is a static
initialized to 90 at process start and is not reset on re-entry. -/
def handleJogZ (s : St) (e : Env) : St × List Cmd :=
  let entering := !s.jzInit
  let s1 := if s.jzInit then s
            else { s with jzLast := e.encCount, jzInit := true }
  let delta := e.encCount - s1.jzLast
  let moved := delta ≠ 0
  let a := jogZStep s1.jzAngle delta
  let s2 := { s1 with jzLast := e.encCount, jzAngle := a }
  let edge := !s2.btnLast && e.buttonLow
  let s3 := { s2 with btnLast := e.buttonLow }
  let s4 := if edge then { s3 with jzInit := false, gState := MachineState.manualMenu }
            else s3
  (s4,
   (if entering then [Cmd.renderJogZ] else [])
     ++ (if moved then [Cmd.servoWrite a] else []))

/-- `fsmUpdate` from the source: dispatch on the top-level state.  In the
`STATE_AUTO_MENU` case the source calls the blocking `autoHome()` before
`handleAutoMenu()` on every tick; the call is recorded as the `Cmd.home`
event (`autoHome` touches only the LCD and the motion drivers, no FSM state). -/
def fsmUpdate (s : St) (e : Env) : St × List Cmd :=
  match s.gState with
  | MachineState.mainMenu => handleMainMenu s e
  | MachineState.autoMenu =>
      let r := handleAutoMenu s e
      (r.1, Cmd.home :: r.2)
  | MachineState.autoRun => handleAutoRun s e
  | MachineState.manualMenu => handleManualMenu s e
  | MachineState.jogX => handleJogX s e
  | MachineState.jogY => handleJogY s e
  | MachineState.jogZ => handleJogZ s e

/-- The process-start state: `fsmInit()` sets the mode to the main menu; every
static local starts at its C++ initializer (`angle = 90`, flags false,
counters zero). -/
def initSt : St :=
  { gState := MachineState.mainMenu
    gLastEncCount := 0
    btnLast := false
    mmInit := false
    mmRow := 0
    amInit := false
    amRow := 0
    manInit := false
    manRow := 0
    autoState := AutoState.idle
    xIndex := 0
    yIndex := 0
    menuRow := 0
    lastEnc := 0
    jxInit := false
    jxTarget := 0
    jyInit := false
    jyTarget := 0
    jzInit := false
    jzLast := 0
    jzAngle := 90 }

/-- An environment with encoder at zero, button released, all motors reporting
zero remaining distance and zero current position. -/
def zeroEnv : Env :=
  { encCount := 0, buttonLow := false, x1Dist := 0, x2Dist := 0, yDist := 0,
    x1Pos := 0, yPos := 0 }

/-- A menu-navigation environment: encoder at `c`, button pin LOW iff `b`. -/
def menuEnv (c : Int) (b : Bool) : Env :=
  { zeroEnv with encCount := c, buttonLow := b }

/-- Input policy for an automatic run in which every motor completes its move
immediately, the encoder never turns, and the operator presses the button
(choosing the highlighted Continue row) whenever the decision menu is up. -/
def contEnv (s : St) : Env :=
  { zeroEnv with
      buttonLow := decide (s.autoState = AutoState.decisionMenu) && !s.btnLast }

/-- The state on entering the automatic run from the auto menu (the auto
sub-machine is in its reset `idle` phase). -/
def autoStart : St :=
  { initSt with gState := MachineState.autoRun }

/-- Simulate `n` ticks under the Continue-always policy, collecting the grid
cell displayed at each probe-lowering (`servo.write(135)`) event, the full
command trace, and the final state. -/
def autoSim : Nat → St → List (Int × Int) × List Cmd × St
  | 0, s => ([], [], s)
  | n + 1, s =>
    let r := fsmUpdate s (contEnv s)
    let here := if Cmd.servoWrite 135 ∈ r.2 then [(s.xIndex, s.yIndex)] else []
    let rest := autoSim n r.1
    (here ++ rest.1, r.2 ++ rest.2.1, rest.2.2)

/-- True of the commands addressed to the X motors. -/
def isXCmd : Cmd → Bool
  | Cmd.xMove _ => true
  | Cmd.xMoveTo _ => true
  | _ => false

/-- A command trace containing no command to either X motor. -/
def noXCmd (cs : List Cmd) : Prop := ∀ c ∈ cs, isXCmd c = false

/-- Relaxed grid-cursor invariant on the auto sub-machine state: both indices
are within the closed ranges `[0, AUTO_NUM_X]` and `[0, AUTO_NUM_Y]`, the
end values being reachable only momentarily (`xIndex = AUTO_NUM_X` signals
grid completion in `moveX`, `yIndex = AUTO_NUM_Y` signals column completion
in `moveY`); inside a cell (from `waitX`/`moveY` on) the indices are strictly
in range as needed for the next boundary check. -/
def gInv (a : AutoState) (x y : Int) : Prop :=
  0 ≤ x ∧ x ≤ AUTO_NUM_X ∧ 0 ≤ y ∧ y ≤ AUTO_NUM_Y ∧
  ((a = AutoState.waitX ∨ a = AutoState.moveY ∨ a = AutoState.waitY ∨
      a = AutoState.decisionMenu) → x < AUTO_NUM_X) ∧
  ((a = AutoState.waitY ∨ a = AutoState.decisionMenu) → y < AUTO_NUM_Y)

/-- The grid-cursor invariant read off a full machine state. -/
def GridInv (s : St) : Prop := gInv s.autoState s.xIndex s.yIndex

instance (a : AutoState) (x y : Int) : Decidable (gInv a x y) := by
  unfold gInv
  infer_instance

instance (s : St) : Decidable (GridInv s) := by
  unfold GridInv
  infer_instance

/-- The state on entering the jog-Z controller for the first time. -/
def jzSt : St := { initSt with gState := MachineState.jogZ }

/-- First jog-Z tick: encoder baseline sampled at 0. -/
def jzTickA : St × List Cmd := fsmUpdate jzSt (menuEnv 0 false)

/-- Second jog-Z tick: the encoder has advanced by 100 detents. -/
def jzTickB : St × List Cmd := fsmUpdate jzTickA.1 (menuEnv 100 false)

/-- Third jog-Z tick: the encoder has moved back by 20 detents. -/
def jzTickC : St × List Cmd := fsmUpdate jzTickB.1 (menuEnv 80 false)

/-- First main-menu tick from process start: renders the menu and samples the
encoder baseline. -/
def mainTick0 : St := (fsmUpdate initSt (menuEnv 0 false)).1

/-- A tick after the encoder has advanced one detent: the selection moves down
one row. -/
def mainTickPlus : St := (fsmUpdate mainTick0 (menuEnv 1 false)).1

/-- A button press following the one-detent move. -/
def mainTickPress : St := (fsmUpdate mainTickPlus (menuEnv 1 true)).1

/-- A button press with the selection still on row 0. -/
def mainTickPress0 : St × List Cmd := fsmUpdate mainTick0 (menuEnv 0 true)

/-- The tick after the row-0 press, with the mode now in the Automatic path. -/
def autoMenuTick : St × List Cmd := fsmUpdate mainTickPress0.1 (menuEnv 0 false)

/-- A decision-gate state at cell (1,0) with the Back row highlighted. -/
def backGateSt : St :=
  { autoStart with autoState := AutoState.decisionMenu, menuRow := 1,
                   xIndex := 1, yIndex := 0 }

/-- An active jog-Z state holding a previously commanded 150-degree angle. -/
def jzActive : St := { jzSt with jzInit := true, jzAngle := 150 }

/-- A jog-Z state being re-entered (handler marked uninitialized) while the
angle accumulator still holds 150 degrees. -/
def jzRe : St := { jzSt with jzAngle := 150 }

/-- A state sitting in the Automatic path's menu. -/
def amSt : St := { initSt with gState := MachineState.autoMenu }

/-- First tick in the auto menu, button not pressed. -/
def amTick1 : St × List Cmd := fsmUpdate amSt (menuEnv 0 false)

/-- Second consecutive tick in the auto menu, still no button press. -/
def amTick2 : St × List Cmd := fsmUpdate amTick1.1 (menuEnv 0 false)

set_option maxHeartbeats 1600000

/-- Helper: `handleMainMenu` leaves the auto sub-machine state and the grid
cursor untouched. -/
theorem mainMenu_frame (s : St) (e : Env) :
    (handleMainMenu s e).1.autoState = s.autoState ∧
    (handleMainMenu s e).1.xIndex = s.xIndex ∧
    (handleMainMenu s e).1.yIndex = s.yIndex := by
  unfold handleMainMenu
  dsimp only
  (repeat' split) <;> simp

/-- Helper: `handleAutoMenu` leaves the auto sub-machine state and the grid
cursor untouched. -/
theorem autoMenu_frame (s : St) (e : Env) :
    (handleAutoMenu s e).1.autoState = s.autoState ∧
    (handleAutoMenu s e).1.xIndex = s.xIndex ∧
    (handleAutoMenu s e).1.yIndex = s.yIndex := by
  unfold handleAutoMenu
  dsimp only
  (repeat' split) <;> simp

/-- Helper: `handleManualMenu` leaves the auto sub-machine state and the grid
cursor untouched. -/
theorem manualMenu_frame (s : St) (e : Env) :
    (handleManualMenu s e).1.autoState = s.autoState ∧
    (handleManualMenu s e).1.xIndex = s.xIndex ∧
    (handleManualMenu s e).1.yIndex = s.yIndex := by
  unfold handleManualMenu
  dsimp only
  (repeat' split) <;> simp

/-- Helper: `handleJogX` leaves the auto sub-machine state and the grid cursor
untouched. -/
theorem jogX_frame (s : St) (e : Env) :
    (handleJogX s e).1.autoState = s.autoState ∧
    (handleJogX s e).1.xIndex = s.xIndex ∧
    (handleJogX s e).1.yIndex = s.yIndex := by
  unfold handleJogX
  dsimp only
  (repeat' split) <;> simp

/-- Helper: `handleJogY` leaves the auto sub-machine state and the grid cursor
untouched. -/
theorem jogY_frame (s : St) (e : Env) :
    (handleJogY s e).1.autoState = s.autoState ∧
    (handleJogY s e).1.xIndex = s.xIndex ∧
    (handleJogY s e).1.yIndex = s.yIndex := by
  unfold handleJogY
  dsimp only
  (repeat' split) <;> simp

/-- Helper: `handleJogZ` leaves the auto sub-machine state and the grid cursor
untouched. -/
theorem jogZ_frame (s : St) (e : Env) :
    (handleJogZ s e).1.autoState = s.autoState ∧
    (handleJogZ s e).1.xIndex = s.xIndex ∧
    (handleJogZ s e).1.yIndex = s.yIndex := by
  unfold handleJogZ
  dsimp only
  (repeat' split) <;> simp

/-- Helper: the grid-cursor invariant transports along equality of the three
fields it reads. -/
theorem gridInv_of_eq {t s : St} (h1 : t.autoState = s.autoState)
    (h2 : t.xIndex = s.xIndex) (h3 : t.yIndex = s.yIndex)
    (h : GridInv s) : GridInv t := by
  unfold GridInv
  rw [h1, h2, h3]
  exact h

/-- Helper: one `handleAutoRun` tick preserves the grid-cursor invariant. -/
theorem autoRun_gridInv (s : St) (e : Env) (h : GridInv s) :
    GridInv (handleAutoRun s e).1 := by
  obtain ⟨gS, gL, bL, mI, mR, aI, aR, nI, nR, a, x, y, mRow, lE,
          jxI, jxT, jyI, jyT, jzI, jzL, jzA⟩ := s
  unfold GridInv gInv AUTO_NUM_X AUTO_NUM_Y at *
  dsimp only at h ⊢
  obtain ⟨h0, h1, h2, h3, h4, h5⟩ := h
  cases a <;>
    simp only [handleAutoRun, AUTO_NUM_X, AUTO_NUM_Y] <;>
    (repeat' split) <;>
    simp_all [AUTO_NUM_X, AUTO_NUM_Y] <;>
    omega

/-- Helper: bounds of one jog-Z angle step. -/
theorem jogZStep_mem (a d : Int) (h0 : 0 ≤ a) (h1 : a ≤ 180) :
    0 ≤ jogZStep a d ∧ jogZStep a d ≤ 180 := by
  unfold jogZStep constrain
  (repeat' split) <;> omega

/-- Helper: a jog-Z angle step whose un-clamped result is in range is exact. -/
theorem jogZStep_exact (a d : Int) (h0 : 0 ≤ a + d) (h1 : a + d ≤ 180) :
    jogZStep a d = a + d := by
  unfold jogZStep constrain
  (repeat' split) <;> omega

/-- Helper: folding jog-Z angle steps from an in-range start stays in range. -/
theorem jogZ_fold_range (deltas : List Int) (a : Int) (h0 : 0 ≤ a) (h1 : a ≤ 180) :
    0 ≤ deltas.foldl jogZStep a ∧ deltas.foldl jogZStep a ≤ 180 := by
  induction deltas generalizing a with
  | nil => exact ⟨h0, h1⟩
  | cons d ds ih =>
    simp only [List.foldl_cons]
    exact ih (jogZStep a d) (jogZStep_mem a d h0 h1).1 (jogZStep_mem a d h0 h1).2

/-- Helper: when every partial sum stays in range, the fold of jog-Z angle
steps is exact accumulation. -/
theorem jogZ_fold_exact (deltas : List Int) (a : Int)
    (h : ∀ l ∈ deltas.inits, 0 ≤ a + l.sum ∧ a + l.sum ≤ 180) :
    deltas.foldl jogZStep a = a + deltas.sum := by
  induction deltas generalizing a with
  | nil => simp
  | cons d ds ih =>
    have hd : 0 ≤ a + d ∧ a + d ≤ 180 := by
      have := h [d] (by simp)
      simpa using this
    simp only [List.foldl_cons, jogZStep_exact a d hd.1 hd.2]
    have hrest : ∀ l ∈ ds.inits, 0 ≤ (a + d) + l.sum ∧ (a + d) + l.sum ≤ 180 := by
      intro l hl
      have := h (d :: l) (by simp [hl])
      constructor <;> [skip; skip] <;> simp [List.sum_cons] at this <;> omega
    have := ih (a + d) hrest
    rw [this]
    simp [List.sum_cons]
    ring

/-- Claim C8: for every `(currentRow, delta, rowCount)` with `currentRow` in
`[0, rowCount)`, the row selector returns a row in `[0, rowCount)`, differing
from `currentRow` by at most one; it increases only when the delta is positive
and decreases only when it is negative; and it never wraps at either end,
whatever the magnitude of the delta. -/
theorem selectRow_props (currentRow maxRows count gLast : Int)
    (h0 : 0 ≤ currentRow) (h1 : currentRow < maxRows) :
    0 ≤ (updateMenuRow currentRow maxRows count gLast).1 ∧
    (updateMenuRow currentRow maxRows count gLast).1 < maxRows ∧
    (updateMenuRow currentRow maxRows count gLast).1 - currentRow ≤ 1 ∧
    currentRow - (updateMenuRow currentRow maxRows count gLast).1 ≤ 1 ∧
    (currentRow < (updateMenuRow currentRow maxRows count gLast).1 →
      0 < count - gLast) ∧
    ((updateMenuRow currentRow maxRows count gLast).1 < currentRow →
      count - gLast < 0) ∧
    (0 < count - gLast →
      currentRow ≤ (updateMenuRow currentRow maxRows count gLast).1) ∧
    (count - gLast < 0 →
      (updateMenuRow currentRow maxRows count gLast).1 ≤ currentRow) ∧
    (count - gLast = 0 →
      (updateMenuRow currentRow maxRows count gLast).1 = currentRow) := by
  unfold updateMenuRow
  dsimp only
  split <;> omega

/-- Witness for C8 at `currentRow = 0`, `maxRows = 2`, one positive detent. -/
theorem selectRow_props_witness :
    (updateMenuRow 0 2 1 0).1 < 2 :=
  (selectRow_props 0 2 1 0 (by decide) (by decide)).2.1

/-- Claim C1 (code bug): while the mode sits in the Automatic path's menu,
`fsmUpdate` invokes the blocking homing routine on every tick, not only on the
first tick after entry: two consecutive ticks in `autoMenu` with the button
released both emit the homing call. -/
theorem homing_runs_every_autoMenu_tick :
    Cmd.home ∈ amTick1.2 ∧
    amTick1.1.gState = MachineState.autoMenu ∧
    Cmd.home ∈ amTick2.2 := by decide

/-- Claim C2 (counterexample): the seek loop of `autoHome` drives exactly
while the digital read is LOW and exits on the first HIGH read, so on the read
sequence LOW, HIGH it drives one step and exits at index 1, while the claim's
active-low reading (exit on the first LOW) would exit at index 0; on the
single-read sequence HIGH the code exits at once where the claim's loop would
still be driving. -/
theorem seek_exit_level_cex :
    seekSteps [false, true] = some 1 ∧
    seekStepsClaim [false, true] = some 0 ∧
    seekSteps [true] = some 0 ∧
    seekStepsClaim [true] = none := by decide

/-- Claim C2 (amended): each homing seek phase keeps driving its motor while
the digital read is electrical LOW and exits the phase exactly at the first
HIGH read (so with the limit switches the loop exits when the read goes HIGH,
not LOW); consequently, when every read in the list is LOW the loop is still
running at the end of the list — with a LOW-forever input the routine does
not return. -/
theorem seek_drives_while_low (reads : List Bool) :
    (∀ n : Nat, seekSteps reads = some n ↔
        reads.get? n = some true ∧ ∀ j : Nat, j < n → reads.get? j = some false) ∧
    ((∀ r ∈ reads, r = false) → seekSteps reads = none) := by
  induction reads with
  | nil =>
    constructor
    · intro n
      constructor
      · intro h
        simp [seekSteps] at h
      · intro h
        simp at h
    · intro _
      rfl
  | cons r rest ih =>
    constructor
    · intro n
      cases r with
      | true =>
        constructor
        · intro h
          simp [seekSteps] at h
          subst h
          simp
        · intro h
          rcases n with _ | m
          · simp [seekSteps]
          · have := h.2 0 (by omega)
            simp at this
      | false =>
        constructor
        · intro h
          simp only [seekSteps, Bool.false_eq_true, if_false,
                     Option.map_eq_some'] at h
          obtain ⟨m, hm, rfl⟩ := h
          have := (ih.1 m).1 hm
          constructor
          · simpa using this.1
          · intro j hj
            rcases j with _ | k
            · simp
            · simpa using this.2 k (by omega)
        · intro h
          rcases n with _ | m
          · simp at h
          · have h1 : rest.get? m = some true := by simpa using h.1
            have h2 : ∀ j : Nat, j < m → rest.get? j = some false := by
              intro j hj
              have := h.2 (j + 1) (by omega)
              simpa using this
            have := (ih.1 m).2 ⟨h1, h2⟩
            simp [seekSteps, this]
    · intro h
      have hr : r = false := h r (by simp)
      subst hr
      have : seekSteps rest = none := ih.2 (fun x hx => h x (by simp [hx]))
      simp [seekSteps, this]

/-- Witness for C2 on the all-LOW read list of length two. -/
theorem seek_drives_while_low_witness :
    seekSteps [false, false] = none :=
  (seek_drives_while_low [false, false]).2 (by decide)

/-- Claim C3: with the grid constants 3 and 6, starting the automatic run at
cell (0,0) and choosing Continue at every decision gate visits the cells in
exactly the column-major order (0,0)..(0,5),(1,0)..(1,5),(2,0)..(2,5), after
which the run displays completion, resets the auto phase to idle and returns
the mode to the main menu. -/
theorem auto_traversal_order :
    (autoSim 81 autoStart).1 =
      [(0,0),(0,1),(0,2),(0,3),(0,4),(0,5),
       (1,0),(1,1),(1,2),(1,3),(1,4),(1,5),
       (2,0),(2,1),(2,2),(2,3),(2,4),(2,5)] ∧
    Cmd.lcdAutoComplete ∈ (autoSim 81 autoStart).2.1 ∧
    (autoSim 81 autoStart).2.2.gState = MachineState.mainMenu ∧
    (autoSim 81 autoStart).2.2.autoState = AutoState.idle := by decide

/-- Claim C4: at a decision gate, choosing Back from a cell with positive
`yIndex` decrements it by one; from a cell with `yIndex = 0` and positive
`xIndex` it decrements `xIndex` and sets `yIndex` to the last row; from cell
(0,0) it leaves the cursor at (0,0); in every case the probe is raised
(`servo.write(90)`) and the phase goes to `moveY`. -/
theorem back_decision_gate (s : St) (e : Env)
    (hg : s.gState = MachineState.autoRun)
    (ha : s.autoState = AutoState.decisionMenu)
    (hrow : decisionRowUpdate s.menuRow (e.encCount - s.lastEnc) = 1)
    (hb : s.btnLast = false) (hB : e.buttonLow = true) :
    ((0 < s.yIndex →
        (fsmUpdate s e).1.yIndex = s.yIndex - 1 ∧
        (fsmUpdate s e).1.xIndex = s.xIndex) ∧
     (s.yIndex = 0 → 0 < s.xIndex →
        (fsmUpdate s e).1.xIndex = s.xIndex - 1 ∧
        (fsmUpdate s e).1.yIndex = AUTO_NUM_Y - 1) ∧
     (s.yIndex = 0 → s.xIndex = 0 →
        (fsmUpdate s e).1.xIndex = 0 ∧ (fsmUpdate s e).1.yIndex = 0)) ∧
    Cmd.servoWrite 90 ∈ (fsmUpdate s e).2 ∧
    (fsmUpdate s e).1.autoState = AutoState.moveY := by
  obtain ⟨gS, gL, bL, mI, mR, aI, aR, nI, nR, a, x, y, mRow, lE,
          jxI, jxT, jyI, jyT, jzI, jzL, jzA⟩ := s
  dsimp only at *
  subst hg ha hb
  simp only [fsmUpdate, handleAutoRun]
  simp [hrow, hB]
  (repeat' split) <;> simp_all <;> omega

/-- Witness for C4: Back pressed at cell (1,0) moves the phase to `moveY`. -/
theorem back_decision_gate_witness :
    (fsmUpdate backGateSt (menuEnv 0 true)).1.autoState = AutoState.moveY :=
  (back_decision_gate backGateSt (menuEnv 0 true) (by decide) (by decide)
    (by decide) (by decide) (by decide)).2.2

/-- Claim C5 (counterexample): after the Continue press at cell (0,5) of a
Continue-always automatic run (25 ticks from entry), the state observable
between ticks is still in the automatic run with `yIndex = 6 = GRID_Y`, an
out-of-range row index not covered by the claim's single `xIndex = GRID_X`
exception. -/
theorem column_end_index_observable :
    (autoSim 25 autoStart).2.2.gState = MachineState.autoRun ∧
    (autoSim 25 autoStart).2.2.autoState = AutoState.moveY ∧
    (autoSim 25 autoStart).2.2.yIndex = 6 ∧
    ¬ (autoSim 25 autoStart).2.2.yIndex < AUTO_NUM_Y := by decide

/-- Claim C5 (amended): between tick calls during an automatic run both
indices satisfy the closed bounds `0 ≤ xIndex ≤ GRID_X` and
`0 ≤ yIndex ≤ GRID_Y`, where `xIndex = GRID_X` momentarily signals grid
completion and `yIndex = GRID_Y` momentarily signals column completion, and
inside a cell (wait and decision phases) both indices are strictly in range:
the invariant holds on entering the run and is preserved by every tick under
every input. -/
theorem grid_cursor_bounds :
    GridInv autoStart ∧
    ∀ (s : St) (e : Env), GridInv s → GridInv (fsmUpdate s e).1 := by
  constructor
  · decide
  · intro s e h
    cases hg : s.gState
    case mainMenu =>
      have f := mainMenu_frame s e
      simpa only [fsmUpdate, hg] using gridInv_of_eq f.1 f.2.1 f.2.2 h
    case autoMenu =>
      have f := autoMenu_frame s e
      simpa only [fsmUpdate, hg] using gridInv_of_eq f.1 f.2.1 f.2.2 h
    case autoRun =>
      simpa only [fsmUpdate, hg] using autoRun_gridInv s e h
    case manualMenu =>
      have f := manualMenu_frame s e
      simpa only [fsmUpdate, hg] using gridInv_of_eq f.1 f.2.1 f.2.2 h
    case jogX =>
      have f := jogX_frame s e
      simpa only [fsmUpdate, hg] using gridInv_of_eq f.1 f.2.1 f.2.2 h
    case jogY =>
      have f := jogY_frame s e
      simpa only [fsmUpdate, hg] using gridInv_of_eq f.1 f.2.1 f.2.2 h
    case jogZ =>
      have f := jogZ_frame s e
      simpa only [fsmUpdate, hg] using gridInv_of_eq f.1 f.2.1 f.2.2 h

/-- Witness for C5: one tick from the run-entry state keeps the invariant. -/
theorem grid_cursor_bounds_witness :
    GridInv (fsmUpdate autoStart (menuEnv 0 false)).1 :=
  grid_cursor_bounds.2 autoStart (menuEnv 0 false) (by decide)

/-- Claim C6 (counterexample): from the 90-degree start, the delta sequence
+100 then -20 (encoder counts 0, 100, 80 across three jog-Z ticks) commands
160 degrees although the pre-clamp accumulated value 90 + 100 - 20 = 170 is
back inside [0, 180]: saturation at the clamp is sticky, the overshoot is not
remembered. -/
theorem jogZ_saturation_cex :
    Cmd.servoWrite 160 ∈ jzTickC.2 ∧
    jzTickC.1.jzAngle = 160 ∧
    jogZAngles [100, -20] = 160 ∧
    (90 : Int) + (100 - 0) + (80 - 100) = 170 ∧
    (0 : Int) ≤ 170 ∧ (170 : Int) ≤ 180 ∧ (160 : Int) ≠ 170 := by decide

/-- Claim C6 (amended): every angle the jog-Z controller holds (and commands)
after any delta sequence lies within [0, 180]; and when every pre-clamp
partial sum 90 + d1 + ... + dj stays within [0, 180], the angle equals the
accumulated value 90 + d1 + ... + dn exactly. -/
theorem jogZ_clamp (deltas : List Int) :
    (0 ≤ jogZAngles deltas ∧ jogZAngles deltas ≤ 180) ∧
    ((∀ l ∈ deltas.inits, 0 ≤ 90 + l.sum ∧ 90 + l.sum ≤ 180) →
      jogZAngles deltas = 90 + deltas.sum) :=
  ⟨jogZ_fold_range deltas 90 (by omega) (by omega),
   fun h => jogZ_fold_exact deltas 90 h⟩

/-- Witness for C6 on the in-range delta sequence +10, -5. -/
theorem jogZ_clamp_witness :
    jogZAngles [10, -5] = 90 + List.sum [10, -5] :=
  (jogZ_clamp [10, -5]).2 (by decide)

/-- Claim C7 (counterexample): from a freshly entered main menu, an encoder
delta of +1 followed by a button edge makes the mode ManualMenu (row 1 is
Manual Mode), not AutoMenu as claimed. -/
theorem plus_one_selects_manual :
    mainTickPress.gState = MachineState.manualMenu ∧
    mainTickPress.gState ≠ MachineState.autoMenu := by decide

/-- Claim C7 (amended): from a freshly entered main menu, a +1 encoder delta
followed by a button edge selects Manual Mode (mode becomes ManualMenu);
pressing with the selection left on row 0 selects Automatic Mode — the mode
becomes AutoMenu, homing runs on the following tick, and the auto menu
renders with row 0 highlighted. -/
theorem main_menu_selection :
    mainTickPress.gState = MachineState.manualMenu ∧
    mainTickPress0.1.gState = MachineState.autoMenu ∧
    Cmd.home ∈ autoMenuTick.2 ∧
    Cmd.renderAutoMenu ∈ autoMenuTick.2 ∧
    Cmd.caret 0 ∈ autoMenuTick.2 ∧
    autoMenuTick.1.amRow = 0 := by decide

/-- Claim C9: when Back is chosen at a cell with `yIndex = 0` and positive
`xIndex`, the cursor wraps to the last row of the previous column but no
command is issued to either X motor, neither on that tick nor on the
subsequent `moveY` and `waitY` ticks — only the Y axis is commanded, so the
physical X position stays in the old column while the displayed coordinates
show the previous one. -/
theorem back_wrap_no_x_command (s : St) (e e2 e3 : Env)
    (hg : s.gState = MachineState.autoRun)
    (ha : s.autoState = AutoState.decisionMenu)
    (hrow : decisionRowUpdate s.menuRow (e.encCount - s.lastEnc) = 1)
    (hb : s.btnLast = false) (hB : e.buttonLow = true)
    (hy : s.yIndex = 0) (hx : 0 < s.xIndex) :
    noXCmd (fsmUpdate s e).2 ∧
    (fsmUpdate s e).1.xIndex = s.xIndex - 1 ∧
    (fsmUpdate s e).1.yIndex = AUTO_NUM_Y - 1 ∧
    (fsmUpdate s e).1.autoState = AutoState.moveY ∧
    noXCmd (fsmUpdate (fsmUpdate s e).1 e2).2 ∧
    Cmd.yMoveTo (yMoveTarget (AUTO_NUM_Y - 1)) ∈ (fsmUpdate (fsmUpdate s e).1 e2).2 ∧
    (fsmUpdate (fsmUpdate s e).1 e2).1.autoState = AutoState.waitY ∧
    noXCmd (fsmUpdate (fsmUpdate (fsmUpdate s e).1 e2).1 e3).2 := by
  obtain ⟨gS, gL, bL, mI, mR, aI, aR, nI, nR, a, x, y, mRow, lE,
          jxI, jxT, jyI, jyT, jzI, jzL, jzA⟩ := s
  dsimp only at *
  subst hg ha hb hy
  simp only [fsmUpdate, handleAutoRun]
  simp [hrow, hB, hx, AUTO_NUM_Y, noXCmd, isXCmd]
  split <;> intro c hc
  · fin_cases hc <;> rfl
  · simp at hc

/-- Witness for C9: the Back press at cell (1,0) issues no X-motor command. -/
theorem back_wrap_no_x_command_witness :
    noXCmd (fsmUpdate backGateSt (menuEnv 0 true)).2 :=
  (back_wrap_no_x_command backGateSt (menuEnv 0 true) zeroEnv zeroEnv
    (by decide) (by decide) (by decide) (by decide) (by decide) (by decide)
    (by decide)).1

/-- Claim C10: the jog-Z angle accumulator starts at 90 degrees only at
process start; a button press exits to the manual menu leaving the angle at
its last commanded value, and a later re-entry re-samples the encoder
baseline (so the pending delta is zero) while the angle keeps its previous
value instead of resetting to 90. -/
theorem jogZ_angle_persists (s : St) (e : Env) (s2 : St) (e2 : Env)
    (h1 : s.gState = MachineState.jogZ) (h2 : s.jzInit = true)
    (hb : s.btnLast = false) (hB : e.buttonLow = true)
    (g1 : s2.gState = MachineState.jogZ) (g2 : s2.jzInit = false) :
    initSt.jzAngle = 90 ∧
    (fsmUpdate s e).1.gState = MachineState.manualMenu ∧
    (fsmUpdate s e).1.jzInit = false ∧
    (fsmUpdate s e).1.jzAngle = jogZStep s.jzAngle (e.encCount - s.jzLast) ∧
    (fsmUpdate s2 e2).1.jzLast = e2.encCount ∧
    (fsmUpdate s2 e2).1.jzAngle = s2.jzAngle := by
  refine ⟨rfl, ?_⟩
  simp only [fsmUpdate, h1, g1, handleJogZ, h2, g2]
  simp [hb, hB, jogZStep]
  split <;> simp

/-- Witness for C10: re-entering jog Z with the accumulator at 150 keeps the
angle at 150. -/
theorem jogZ_angle_persists_witness :
    (fsmUpdate jzRe (menuEnv 7 false)).1.jzAngle = jzRe.jzAngle :=
  (jogZ_angle_persists jzActive (menuEnv 0 true) jzRe (menuEnv 7 false)
    (by decide) (by decide) (by decide) (by decide) (by decide)
    (by decide)).2.2.2.2.2

end CNC
